import Mathlib

/-
Verification of src/tools/common.ts of the playwright-mcp tool catalog.

The file embeds the tool handlers of common.ts shallowly:
raw JSON parameter payloads become an inductive Json type, zod object
validation (default non-strict mode: declared fields are checked, unknown
keys are stripped) becomes zodParse over per-tool field specifications, and
each handler becomes a pure function from the raw payload to either a list
of validation issues (the InvalidParams case) or a structured description of
the effects the handler performs: which tab accessor it uses (ensureTab or
currentTab), whether it goes through run or runAndWait, which tab action it
submits, and the options record it passes.
-/

namespace PlaywrightMcp

/-- JSON-like values: the raw parameter payloads a tool invocation carries.
Numbers are modelled as rationals. -/
inductive Json where
  | str (s : String)
  | num (q : ℚ)
  | bool (b : Bool)
  | arr (elems : List Json)
  | obj (fields : List (String × Json))
  | null

/-- The primitive field types occurring in the zod schemas of common.ts:
z.string, z.number, and z.array of z.string. -/
inductive FieldType where
  | tyString
  | tyNumber
  | tyStringArray
deriving DecidableEq, Repr

/-- One declared field of a zod object schema: its key, its type, and
whether the declaration carries .optional(). -/
structure FieldSpec where
  fname : String
  ftype : FieldType
  foptional : Bool
deriving DecidableEq, Repr

/-- Validation issues, the content of a zod error: the tool layer surfaces
any such error as InvalidParams. requiredMissing models the zod issue for a
required field that is absent; invalidType models a present field of the
wrong type or a non-object payload. -/
inductive ZodIssue where
  | requiredMissing (path : String)
  | invalidType (path : String)
deriving DecidableEq, Repr

/-- Extract a string from a Json value, as z.string acceptance. -/
def asString : Json → Option String
  | .str s => some s
  | _ => none

/-- Extract a list of strings from a list of Json values; succeeds exactly
when every element is a string, as z.array of z.string acceptance. -/
def allStrings : List Json → Option (List String)
  | [] => some []
  | x :: rest =>
    match asString x, allStrings rest with
    | some s, some l => some (s :: l)
    | _, _ => none

/-- Does a Json value satisfy a declared field type. -/
def typeCheck : FieldType → Json → Bool
  | .tyString, v => (asString v).isSome
  | .tyNumber, .num _ => true
  | .tyNumber, _ => false
  | .tyStringArray, .arr xs => (allStrings xs).isSome
  | .tyStringArray, _ => false

/-- First-match lookup of a key in a field list, as JS property access on
the parsed payload object. -/
def lookupField (key : String) : List (String × Json) → Option Json
  | [] => none
  | (k, v) :: rest => if k = key then some v else lookupField key rest

/-- Check the declared fields of a schema against the fields of the payload
object, collecting issues and the validated output record. Only declared
keys are inspected and only declared keys appear in the output: zod object
schemas in their default mode strip unknown keys. -/
def parseFields (spec : List FieldSpec) (fields : List (String × Json)) :
    List ZodIssue × List (String × Json) :=
  match spec with
  | [] => ([], [])
  | f :: rest =>
    let tail := parseFields rest fields
    match lookupField f.fname fields with
    | none =>
      if f.foptional then tail
      else (.requiredMissing f.fname :: tail.1, tail.2)
    | some v =>
      if typeCheck f.ftype v then (tail.1, (f.fname, v) :: tail.2)
      else (.invalidType f.fname :: tail.1, tail.2)

/-- zod object parse in default (non-strict) mode: the payload must be an
object; each declared field is checked; unknown keys are dropped. The
result is the validated record or the list of issues. -/
def zodParse (spec : List FieldSpec) (raw : Json) :
    Except (List ZodIssue) (List (String × Json)) :=
  match raw with
  | .obj fields =>
    let r := parseFields spec fields
    if r.1.isEmpty then .ok r.2 else .error r.1
  | _ => .error [.invalidType ""]

/-- navigateSchema: z.object with url as z.string (no URL-format check). -/
def navigateFields : List FieldSpec := [⟨"url", .tyString, false⟩]

/-- waitSchema: z.object with time as z.number (no lower or upper bound). -/
def waitFields : List FieldSpec := [⟨"time", .tyNumber, false⟩]

/-- pressKeySchema: z.object with key as z.string. -/
def pressKeyFields : List FieldSpec := [⟨"key", .tyString, false⟩]

/-- pdfSchema: z.object with optional width as z.number and optional
fileName as z.string. -/
def pdfFields : List FieldSpec :=
  [⟨"width", .tyNumber, true⟩, ⟨"fileName", .tyString, true⟩]

/-- chooseFileSchema: z.object with paths as z.array of z.string. -/
def chooseFileFields : List FieldSpec := [⟨"paths", .tyStringArray, false⟩]

/-- Math.min of JS on two numbers: the second argument when it is strictly
smaller, the first otherwise. Stated over the computable comparison
Rat.blt so that concrete invocations evaluate. -/
def jsMin (a b : ℚ) : ℚ := cond (Rat.blt b a) b a

/-- jsMin agrees with the mathematical minimum. -/
theorem jsMin_eq_min (a b : ℚ) : jsMin a b = min a b := by
  unfold jsMin
  rw [min_def]
  cases h : Rat.blt b a with
  | false =>
    have hab : a ≤ b := h
    simp [hab]
  | true =>
    have hba : b < a := h
    simp [not_le.mpr hba]

/-- Rendering of a JS number into a response string, for template literals
over numeric values. -/
def numToString (q : ℚ) : String := toString q

/-- Which BrowserContext accessor a handler uses to obtain its tab. -/
inductive TabSource where
  | ensureTab
  | currentTab
deriving DecidableEq, Repr

/-- The options record a handler passes to run or runAndWait. A field the
source object literal omits is none. -/
structure RunOptions where
  status : String
  captureSnapshot : Bool
  noClearFileChooser : Option Bool
deriving DecidableEq, Repr

/-- The browser action a handler closure performs against the tab. -/
inductive TabAction where
  | navigate (url : String)
  | goBack
  | goForward
  | keyPress (key : String)
  | submitFileChooser (paths : List String)
deriving DecidableEq, Repr

/-- One invocation of the ActionRunner by a handler: the tab accessor used,
whether the waiting entry point runAndWait was used (run otherwise), the
action submitted, and the options passed. -/
structure RunCall where
  source : TabSource
  waiting : Bool
  action : TabAction
  options : RunOptions
deriving DecidableEq, Repr

/-- Typed result of navigateSchema.parse. -/
structure NavigateParams where
  url : String
deriving DecidableEq, Repr

/-- navigateSchema.parse: validate the payload and extract the url field. -/
def parseNavigate (raw : Json) : Except (List ZodIssue) NavigateParams :=
  match zodParse navigateFields raw with
  | .error e => .error e
  | .ok out =>
    match lookupField "url" out with
    | some (.str s) => .ok ⟨s⟩
    | _ => .error [.invalidType "url"]

/-- browser_navigate handler: validate, obtain the tab via ensureTab, then
run (not runAndWait) the navigation with the interpolated status. -/
def navigateHandle (captureSnapshot : Bool) (params : Json) :
    Except (List ZodIssue) RunCall :=
  match parseNavigate params with
  | .error e => .error e
  | .ok p =>
    .ok { source := .ensureTab
          waiting := false
          action := .navigate p.url
          options := { status := "Navigated to " ++ p.url
                       captureSnapshot := captureSnapshot
                       noClearFileChooser := none } }

/-- browser_go_back handler: no validation (the handler ignores its raw
params), currentTab, runAndWait, fixed status. -/
def goBackHandle (snapshot : Bool) : RunCall :=
  { source := .currentTab
    waiting := true
    action := .goBack
    options := { status := "Navigated back"
                 captureSnapshot := snapshot
                 noClearFileChooser := none } }

/-- browser_go_forward handler: no validation (the handler ignores its raw
params), currentTab, runAndWait, fixed status. -/
def goForwardHandle (snapshot : Bool) : RunCall :=
  { source := .currentTab
    waiting := true
    action := .goForward
    options := { status := "Navigated forward"
                 captureSnapshot := snapshot
                 noClearFileChooser := none } }

/-- Typed result of waitSchema.parse. -/
structure WaitParams where
  time : ℚ
deriving DecidableEq, Repr

/-- waitSchema.parse: validate the payload and extract the time field. -/
def parseWait (raw : Json) : Except (List ZodIssue) WaitParams :=
  match zodParse waitFields raw with
  | .error e => .error e
  | .ok out =>
    match lookupField "time" out with
    | some (.num q) => .ok ⟨q⟩
    | _ => .error [.invalidType "time"]

/-- Observable outcome of the browser_wait handler: the millisecond value
passed to setTimeout, and the response text. The handler touches no tab. -/
structure WaitResult where
  delayMs : ℚ
  text : String
deriving DecidableEq, Repr

/-- browser_wait handler: validate, sleep for
Math.min(10000, time * 1000) milliseconds, report the requested time. -/
def waitHandle (params : Json) : Except (List ZodIssue) WaitResult :=
  match parseWait params with
  | .error e => .error e
  | .ok p =>
    .ok { delayMs := jsMin 10000 (Rat.mul p.time 1000)
          text := "Waited for " ++ numToString p.time ++ " seconds" }

/-- Typed result of pressKeySchema.parse. -/
structure PressKeyParams where
  key : String
deriving DecidableEq, Repr

/-- pressKeySchema.parse: validate the payload and extract the key field. -/
def parsePressKey (raw : Json) : Except (List ZodIssue) PressKeyParams :=
  match zodParse pressKeyFields raw with
  | .error e => .error e
  | .ok out =>
    match lookupField "key" out with
    | some (.str s) => .ok ⟨s⟩
    | _ => .error [.invalidType "key"]

/-- browser_press_key handler: validate first, then currentTab, runAndWait
the key press with the interpolated status. A validation error is returned
before any tab is obtained or any keyboard action is produced. -/
def pressKeyHandle (captureSnapshot : Bool) (params : Json) :
    Except (List ZodIssue) RunCall :=
  match parsePressKey params with
  | .error e => .error e
  | .ok p =>
    .ok { source := .currentTab
          waiting := true
          action := .keyPress p.key
          options := { status := "Pressed key " ++ p.key
                       captureSnapshot := captureSnapshot
                       noClearFileChooser := none } }

/-- Typed result of chooseFileSchema.parse. -/
structure ChooseFileParams where
  paths : List String
deriving DecidableEq, Repr

/-- chooseFileSchema.parse: validate the payload and extract paths. -/
def parseChooseFile (raw : Json) : Except (List ZodIssue) ChooseFileParams :=
  match zodParse chooseFileFields raw with
  | .error e => .error e
  | .ok out =>
    match lookupField "paths" out with
    | some (.arr xs) =>
      match allStrings xs with
      | some l => .ok ⟨l⟩
      | none => .error [.invalidType "paths"]
    | _ => .error [.invalidType "paths"]

/-- browser_choose_file handler: validate, currentTab, runAndWait the file
submission, passing noClearFileChooser as true in the options. -/
def chooseFileHandle (captureSnapshot : Bool) (params : Json) :
    Except (List ZodIssue) RunCall :=
  match parseChooseFile params with
  | .error e => .error e
  | .ok p =>
    .ok { source := .currentTab
          waiting := true
          action := .submitFileChooser p.paths
          options := { status := "Chose files " ++ String.intercalate ", " p.paths
                       captureSnapshot := captureSnapshot
                       noClearFileChooser := some true } }

/-- Typed result of pdfSchema.parse: both fields optional. -/
structure PdfParams where
  width : Option ℚ
  fileName : Option String
deriving DecidableEq, Repr

/-- pdfSchema.parse: validate the payload and extract the optional width
and fileName fields. -/
def parsePdf (raw : Json) : Except (List ZodIssue) PdfParams :=
  match zodParse pdfFields raw with
  | .error e => .error e
  | .ok out =>
    .ok { width :=
            match lookupField "width" out with
            | some (.num q) => some q
            | _ => none
          fileName :=
            match lookupField "fileName" out with
            | some (.str s) => some s
            | _ => none }

/-- The fixed output directory hardcoded in the pdf handler. -/
def saveDir : String := "C:/Users/User/mcp_projects/shared"

/-- Ambient inputs of the pdf handler that come from outside common.ts:
the current ISO timestamp, the sanitizeForFilePath function imported from
utils, the path.join function of node, and the two scroll heights the
injected page script reads from the document. -/
structure PdfEnv where
  nowIso : String
  sanitize : String → String
  pathJoin : String → String → String
  scrollHeightBody : ℚ
  scrollHeightDoc : ℚ

/-- One page-level step the pdf handler performs, in order. -/
inductive PdfStep where
  | setViewportSize (width height : ℚ)
  | evalScrollHeight
  | callPdf (filePath widthArg heightArg : String) (printBackground : Bool)

/-- Observable outcome of the pdf handler: the tab accessor used, the
ordered page steps, and the response text. -/
structure PdfOutcome where
  source : TabSource
  steps : List PdfStep
  text : String

/-- browser_save_as_pdf handler: validate, currentTab, default width to
1400 and fileName to page-<timestamp>, sanitize the file name and join it
onto the fixed directory, set the viewport to width x 800, measure
the scroll height as the max of body and documentElement, and call the
PDF export with width and height arguments in px. -/
def pdfHandle (env : PdfEnv) (params : Json) :
    Except (List ZodIssue) PdfOutcome :=
  match parsePdf params with
  | .error e => .error e
  | .ok p =>
    let defaultFileName := "page-" ++ env.nowIso
    let numericWidth := p.width.getD 1400
    let fileName := p.fileName.getD defaultFileName
    let filePath := env.pathJoin saveDir (env.sanitize (fileName ++ ".pdf"))
    let scrollHeight := max env.scrollHeightBody env.scrollHeightDoc
    .ok { source := .currentTab
          steps := [ .setViewportSize numericWidth 800
                   , .evalScrollHeight
                   , .callPdf filePath (numToString numericWidth ++ "px")
                       (numToString scrollHeight ++ "px") true ]
          text := "Saved as " ++ filePath ++ " with width set to "
                    ++ numToString numericWidth ++ "px." }

/-- Canonical raw payload for the pdf tool with the two optional fields
either present or absent. -/
def pdfParamsJson (w : Option ℚ) (fn : Option String) : Json :=
  .obj ((w.map fun q => ("width", Json.num q)).toList
        ++ (fn.map fun s => ("fileName", Json.str s)).toList)

/-- Modelled from the spec: BrowserContext.currentTab (context.ts is absent
from the excerpt) returns the current tab if one exists and fails with
NoActiveTab if none does; tabs are abstracted to identifiers. -/
def currentTabOf (cur : Option Nat) : Except String Nat :=
  match cur with
  | some t => .ok t
  | none => .error "NoActiveTab"

/-- Modelled from the spec: the cleanup step of the ActionRunner (tab.ts is
absent from the excerpt) clears any pending file-chooser state unless the
options set noClearFileChooser. -/
def cleanupChooser (noClear : Option Bool) (pending : Option (List String)) :
    Option (List String) :=
  if noClear.getD false then pending else none

/-- Rat.mul is the multiplication of the rationals. -/
theorem ratMul_eq_mul (a b : ℚ) : Rat.mul a b = a * b := rfl

/-- Looking up a key is unaffected by appending a binding for a different
key. -/
theorem lookupField_append_single (key k : String) (v : Json)
    (fields : List (String × Json)) (h : k ≠ key) :
    lookupField key (fields ++ [(k, v)]) = lookupField key fields := by
  induction fields with
  | nil => simp [lookupField, h]
  | cons hd tl ih =>
    obtain ⟨k1, v1⟩ := hd
    simp only [List.cons_append, lookupField]
    split <;> simp [ih]

/-- Checking the declared fields is unaffected by appending a binding whose
key is not declared. -/
theorem parseFields_append_single (spec : List FieldSpec)
    (fields : List (String × Json)) (k : String) (v : Json)
    (hk : k ∉ spec.map FieldSpec.fname) :
    parseFields spec (fields ++ [(k, v)]) = parseFields spec fields := by
  induction spec with
  | nil => rfl
  | cons f rest ih =>
    simp only [List.map_cons, List.mem_cons, not_or] at hk
    obtain ⟨h1, h2⟩ := hk
    simp only [parseFields, ih h2,
      lookupField_append_single f.fname k v fields h1]

/-- allStrings succeeds on a list of string values and returns them. -/
theorem allStrings_map_str (paths : List String) :
    allStrings (paths.map Json.str) = some paths := by
  induction paths with
  | nil => rfl
  | cons p rest ih => simp [List.map_cons, allStrings, asString, ih]

/-- C1 counterexample: a negative wait time is not rejected at validation.
waitSchema places no lower bound on time, so the payload time = -5 parses
and the handler proceeds, passing the negative value -5000 ms to the
timer. -/
theorem wait_negative_time_not_rejected :
    waitHandle (Json.obj [("time", Json.num (-5))]) =
      .ok ⟨-5000, "Waited for -5 seconds"⟩ ∧ ((-5000 : ℚ) < 0) := by
  constructor
  · norm_num [waitHandle, parseWait, zodParse, waitFields, parseFields,
      lookupField, typeCheck, jsMin, Rat.blt, Rat.mul, numToString,
      Rat.normalize]
    rfl
  · norm_num

/-- C1 (amended): for every numeric wait time t, validation accepts the
payload (including negative t) and the value the handler passes to the
timer is min(10, t) seconds, that is min(10000, t * 1000) ms; for negative
t this value is negative rather than rejected, and the runtime timer
treats it as zero delay. -/
theorem wait_delay_is_min_of_requested_and_ten :
    ∀ t : ℚ, waitHandle (Json.obj [("time", Json.num t)]) =
      .ok { delayMs := min 10000 (t * 1000)
            text := "Waited for " ++ numToString t ++ " seconds" } := by
  intro t
  simp [waitHandle, parseWait, zodParse, waitFields, parseFields,
    lookupField, typeCheck, jsMin_eq_min, ratMul_eq_mul]

/-- C2 counterexample: a payload with an undeclared extra field is not
rejected by validation; the extra field is stripped and the parse
succeeds. -/
theorem unknown_field_not_rejected :
    zodParse navigateFields
      (Json.obj [("url", Json.str "https://example.com"),
                 ("extra", Json.num 1)]) =
      .ok [("url", Json.str "https://example.com")] := by
  rfl

/-- C2 (amended): for every tool schema, a raw params record that contains
a field not declared in the shape validates exactly as the record without
that field: unknown extra fields are silently stripped (zod default
non-strict object), not rejected. -/
theorem zodParse_strips_unknown_fields (spec : List FieldSpec)
    (fields : List (String × Json)) (k : String) (v : Json)
    (hk : k ∉ spec.map FieldSpec.fname) :
    zodParse spec (.obj (fields ++ [(k, v)])) = zodParse spec (.obj fields) := by
  simp only [zodParse, parseFields_append_single spec fields k v hk]

/-- Witness for C2 (amended) at the navigate schema with extra field
"extra". -/
theorem zodParse_strips_unknown_fields_witness :
    "extra" ∉ navigateFields.map FieldSpec.fname ∧
    zodParse navigateFields
        (.obj ([("url", Json.str "https://example.com")] ++ [("extra", Json.null)])) =
      zodParse navigateFields (.obj [("url", Json.str "https://example.com")]) :=
  ⟨by decide,
   zodParse_strips_unknown_fields navigateFields
     [("url", Json.str "https://example.com")] "extra" Json.null (by decide)⟩

/-- C3 counterexample: a url value that is not a syntactically plausible
URL passes validation, because navigateSchema only requires a string. -/
theorem navigate_implausible_url_accepted :
    parseNavigate (Json.obj [("url", Json.str "not a url")]) =
      .ok ⟨"not a url"⟩ := by
  rfl

/-- C3 (amended): browser_navigate validation only checks that url is
present and is a string: every string value (syntactically plausible URL or
not) is accepted, while a missing url or a non-string url fails with
InvalidParams before any browser interaction; malformed URLs surface only
later, at navigation time, as an action failure. -/
theorem navigate_url_validation_checks_string_only :
    (∀ s : String, parseNavigate (Json.obj [("url", Json.str s)]) = .ok ⟨s⟩) ∧
    parseNavigate (Json.obj []) = .error [.requiredMissing "url"] ∧
    (∀ q : ℚ, parseNavigate (Json.obj [("url", Json.num q)]) =
      .error [.invalidType "url"]) := by
  refine ⟨fun s => ?_, rfl, fun q => ?_⟩ <;>
    simp [parseNavigate, zodParse, navigateFields, parseFields, lookupField,
      typeCheck, asString]

/-- C4: browser_press_key invoked with an empty params record fails with
the InvalidParams issue for the missing required key field; the error is
produced by validation, before any RunCall (tab acquisition, keyboard
action) exists. -/
theorem pressKey_empty_params_invalid :
    ∀ cs : Bool, pressKeyHandle cs (Json.obj []) =
      .error [.requiredMissing "key"] := by
  intro cs
  rfl

/-- C5: for every url string accepted by validation, the browser_navigate
handler obtains its tab via ensureTab (never currentTab) and passes the
status text "Navigated to <url>" with the validated url interpolated. -/
theorem navigate_uses_ensureTab_and_status :
    ∀ (cs : Bool) (url : String),
      navigateHandle cs (Json.obj [("url", Json.str url)]) =
        .ok { source := .ensureTab
              waiting := false
              action := .navigate url
              options := { status := "Navigated to " ++ url
                           captureSnapshot := cs
                           noClearFileChooser := none } } := by
  intro cs url
  simp [navigateHandle, parseNavigate, zodParse, navigateFields, parseFields,
    lookupField, typeCheck, asString]

/-- C6: the browser_go_back and browser_go_forward handlers always obtain
the tab via currentTab, always use the waiting entry point runAndWait, and
report the fixed status texts regardless of any history state; the
spec-modelled currentTab accessor fails with NoActiveTab when no tab
exists. -/
theorem goBack_goForward_currentTab_runAndWait :
    ∀ s : Bool,
      goBackHandle s =
        { source := .currentTab
          waiting := true
          action := .goBack
          options := { status := "Navigated back"
                       captureSnapshot := s
                       noClearFileChooser := none } } ∧
      goForwardHandle s =
        { source := .currentTab
          waiting := true
          action := .goForward
          options := { status := "Navigated forward"
                       captureSnapshot := s
                       noClearFileChooser := none } } ∧
      currentTabOf none = .error "NoActiveTab" := by
  intro s
  exact ⟨rfl, rfl, rfl⟩

/-- C7: for every invocation of browser_save_as_pdf, width defaults to 1400
and fileName to the timestamp-derived page-<timestamp> when absent; the PDF
export receives width argument exactly <width>px and height argument equal
to the measured full scrollable content height in px; and the file path is
the fixed directory joined with the sanitized file name. -/
theorem pdf_defaults_and_export_arguments :
    ∀ (env : PdfEnv) (w : Option ℚ) (fn : Option String),
      pdfHandle env (pdfParamsJson w fn) =
        .ok { source := .currentTab
              steps := [ .setViewportSize (w.getD 1400) 800
                       , .evalScrollHeight
                       , .callPdf
                           (env.pathJoin saveDir
                             (env.sanitize ((fn.getD ("page-" ++ env.nowIso)) ++ ".pdf")))
                           (numToString (w.getD 1400) ++ "px")
                           (numToString (max env.scrollHeightBody env.scrollHeightDoc) ++ "px")
                           true ]
              text := "Saved as "
                        ++ env.pathJoin saveDir
                             (env.sanitize ((fn.getD ("page-" ++ env.nowIso)) ++ ".pdf"))
                        ++ " with width set to "
                        ++ numToString (w.getD 1400) ++ "px." } := by
  intro env w fn
  cases w <;> cases fn <;> rfl

/-- C8: the browser_choose_file handler obtains its tab via currentTab,
submits exactly the given file paths, and always passes noClearFileChooser
as true in its run options; under the spec-modelled cleanup step such
options leave pending chooser state untouched. -/
theorem chooseFile_sets_noClearFileChooser :
    ∀ (cs : Bool) (paths : List String),
      chooseFileHandle cs (Json.obj [("paths", Json.arr (paths.map Json.str))]) =
        .ok { source := .currentTab
              waiting := true
              action := .submitFileChooser paths
              options := { status := "Chose files " ++ String.intercalate ", " paths
                           captureSnapshot := cs
                           noClearFileChooser := some true } } ∧
      ∀ pending, cleanupChooser (some true) pending = pending := by
  intro cs paths
  refine ⟨?_, fun pending => rfl⟩
  simp [chooseFileHandle, parseChooseFile, zodParse, chooseFileFields,
    parseFields, lookupField, typeCheck, allStrings_map_str]

/-- C9: the browser_wait response text always reports the originally
requested time, not the clamped delay; at t = 15 the text says 15 seconds
although the timer receives 10000 ms (10 seconds). -/
theorem wait_text_reports_requested_time :
    (∀ t : ℚ, (waitHandle (Json.obj [("time", Json.num t)])).map WaitResult.text =
      .ok ("Waited for " ++ numToString t ++ " seconds")) ∧
    waitHandle (Json.obj [("time", Json.num 15)]) =
      .ok ⟨10000, "Waited for 15 seconds"⟩ := by
  constructor
  · intro t
    simp [waitHandle, parseWait, zodParse, waitFields, parseFields,
      lookupField, typeCheck, Except.map]
  · norm_num [waitHandle, parseWait, zodParse, waitFields, parseFields,
      lookupField, typeCheck, jsMin, Rat.blt, Rat.mul, numToString,
      Rat.normalize]
    rfl

/-- C10: every invocation of browser_save_as_pdf sets the viewport height
to the fixed constant 800 regardless of all parameters (only the width
varies), and does so before measuring the scroll height. -/
theorem pdf_viewport_height_fixed_800 :
    ∀ (env : PdfEnv) (w : Option ℚ) (fn : Option String),
      (pdfHandle env (pdfParamsJson w fn)).map (fun out => out.steps.take 2) =
        .ok [PdfStep.setViewportSize (w.getD 1400) 800, PdfStep.evalScrollHeight] := by
  intro env w fn
  cases w <;> cases fn <;> rfl

end PlaywrightMcp
